import Mathlib

/-!
Shallow embedding of the stock-watcher core (time-series store, polling
alert logic, quote providers and provider selection), together with
theorems settling the specification claims about it.

Conventions of the embedding:
* JavaScript numbers are modelled as exact rationals (`ℚ`); epoch
  timestamps as integers (`ℤ`).  Where the source can divide by zero,
  IEEE semantics (±Infinity / NaN and their comparisons) are modelled by
  an explicit case split at the comparison that consumes the quotient.
* JavaScript truthiness of an optional number (`undefined`/`null`/`0`
  are falsy) is modelled on `Option ℚ`; likewise for strings (`""` falsy).
* The SQLite table `option_volume_history` is modelled as a list of rows
  in insertion order; `INSERT OR REPLACE` under the
  `UNIQUE(symbol, timestamp)` constraint removes the conflicting row and
  appends the new one; `ORDER BY timestamp ASC` is a stable sort.
* Asynchronous methods are modelled as pure state transformers; a
  fallible SQL layer is modelled by an explicit failure oracle.
-/

namespace StockWatcher

/-- A row of the `option_volume_history` table (also the
`OptionsVolumeData` record as far as it is persisted: the stored columns
`symbol, timestamp, call_volume, put_volume, call_open_interest,
put_open_interest, call_put_ratio`; the `date` string is derived display
data recomputed from `timestamp` and not part of the stored sample). -/
structure OptionsVolumeData where
  symbol : String
  timestamp : ℤ
  callVolume : ℚ
  putVolume : ℚ
  callOpenInterest : ℚ
  putOpenInterest : ℚ
  callPutRatio : ℚ
deriving DecidableEq

instance : Inhabited OptionsVolumeData :=
  ⟨⟨"", 0, 0, 0, 0, 0, 0⟩⟩

/-- A row of the `moving_averages` table. -/
structure MovingAverageData where
  symbol : String
  ma10 : Option ℚ
  ma50 : Option ℚ
  ma100 : Option ℚ
  ma200 : Option ℚ
  lastUpdated : ℤ
deriving DecidableEq

/-- The two tables owned by `DatabaseService`. -/
structure DbState where
  optionVolumeHistory : List OptionsVolumeData
  movingAverages : List MovingAverageData
deriving DecidableEq

/-- The `UNIQUE(symbol, timestamp)` conflict test of the
`option_volume_history` schema. -/
def sameKey (a b : OptionsVolumeData) : Bool :=
  a.symbol == b.symbol && a.timestamp == b.timestamp

/-- Effect of one
`INSERT OR REPLACE INTO option_volume_history ... VALUES (?, ...)`
statement: the row conflicting on `(symbol, timestamp)` (if any) is
replaced by the new row. -/
def upsertRow (tbl : List OptionsVolumeData) (r : OptionsVolumeData) :
    List OptionsVolumeData :=
  tbl.filter (fun x => !(sameKey x r)) ++ [r]

/-- `DatabaseService.saveOptionsVolumeData`: a single upsert of one
sample (the statement succeeds). -/
def saveOptionsVolumeData (tbl : List OptionsVolumeData)
    (data : OptionsVolumeData) : List OptionsVolumeData :=
  upsertRow tbl data

/-- `DatabaseService.executeTransaction` as written in the source: the
statements are executed sequentially by `executeSql`, each of which may
fail; on the first failure the error is rethrown and the remaining
statements are not executed.  No `BEGIN`/`COMMIT`/`ROLLBACK` is issued,
so the effects of the statements already executed persist.  The failure
oracle `fails` says which row inserts the storage layer rejects; the
result is the final table together with `true` for success / `false`
for a thrown error. -/
def executeTransaction (fails : OptionsVolumeData → Bool) :
    List OptionsVolumeData → List OptionsVolumeData →
    List OptionsVolumeData × Bool
  | tbl, [] => (tbl, true)
  | tbl, r :: rest =>
    if fails r then (tbl, false)
    else executeTransaction fails (upsertRow tbl r) rest

/-- `DatabaseService.saveOptionsVolumeBatch`: early return on an empty
batch, otherwise one `INSERT OR REPLACE` statement per sample handed to
`executeTransaction`. -/
def saveOptionsVolumeBatch (fails : OptionsVolumeData → Bool)
    (tbl : List OptionsVolumeData) (dataArray : List OptionsVolumeData) :
    List OptionsVolumeData × Bool :=
  if dataArray.isEmpty then (tbl, true)
  else executeTransaction fails tbl dataArray

/-- The `AND timestamp >= ?` clause of `getOptionsVolumeHistory`.  The
clause is appended only under `if (startTime)`, so a missing bound and a
bound equal to `0` (falsy in JavaScript) both leave the query without a
lower bound. -/
def tsLowerOk (startTime : Option ℤ) (r : OptionsVolumeData) : Bool :=
  match startTime with
  | none => true
  | some s => if s = 0 then true else decide (s ≤ r.timestamp)

/-- The `AND timestamp <= ?` clause of `getOptionsVolumeHistory`,
appended only under `if (endTime)`; `0` is falsy, hence no upper bound. -/
def tsUpperOk (endTime : Option ℤ) (r : OptionsVolumeData) : Bool :=
  match endTime with
  | none => true
  | some e => if e = 0 then true else decide (r.timestamp ≤ e)

/-- Ordering used by `ORDER BY timestamp ASC`. -/
def tsLE (a b : OptionsVolumeData) : Prop :=
  a.timestamp ≤ b.timestamp

instance : DecidableRel tsLE := fun a b =>
  inferInstanceAs (Decidable (a.timestamp ≤ b.timestamp))

instance : IsTotal OptionsVolumeData tsLE :=
  ⟨fun a b => Int.le_total a.timestamp b.timestamp⟩

instance : IsTrans OptionsVolumeData tsLE :=
  ⟨fun _ _ _ h1 h2 => le_trans h1 h2⟩

/-- `DatabaseService.getOptionsVolumeHistory symbol startTime endTime`:
`SELECT ... WHERE symbol = ? [AND timestamp >= ?] [AND timestamp <= ?]
ORDER BY timestamp ASC`. -/
def getOptionsVolumeHistory (tbl : List OptionsVolumeData)
    (symbol : String) (startTime endTime : Option ℤ) :
    List OptionsVolumeData :=
  List.insertionSort tsLE
    (tbl.filter (fun r =>
      r.symbol == symbol && tsLowerOk startTime r && tsUpperOk endTime r))

/-- Milliseconds in 7 days, the retention horizon of `purgeOldData`. -/
def sevenDaysMs : ℤ := 7 * 24 * 60 * 60 * 1000

/-- `DatabaseService.purgeOldData` at wall-clock time `now`:
`DELETE FROM option_volume_history WHERE timestamp < ?` with
`? = now - 7 days`; the `moving_averages` table is not touched. -/
def purgeOldData (now : ℤ) (db : DbState) : DbState :=
  { db with
    optionVolumeHistory :=
      db.optionVolumeHistory.filter
        (fun r => !(decide (r.timestamp < now - sevenDaysMs))) }

/-- The comparison `Math.abs(percentChange) > 50` of
`NotificationService.checkAlertCondition`, where
`percentChange = ((latest.callPutRatio - previous.callPutRatio) /
previous.callPutRatio) * 100`.  When the denominator is `0` the
JavaScript quotient is `±Infinity` (numerator nonzero, absolute value
exceeds 50) or `NaN` (numerator zero, every comparison false). -/
def jsAbsSwingGt50 (prevRatio latestRatio : ℚ) : Bool :=
  if prevRatio = 0 then decide (latestRatio ≠ 0)
  else decide (|(latestRatio - prevRatio) / prevRatio * 100| > 50)

/-- The comparison `volumePercentChange > 100` of
`checkAlertCondition`, where `volumePercentChange =
((latestTotal - previousTotal) / previousTotal) * 100`.  With a zero
denominator the quotient is `+Infinity` (positive numerator, comparison
true), `NaN` (zero numerator) or `-Infinity`, the latter two failing
the comparison. -/
def jsVolumeGt100 (prevTotal latestTotal : ℚ) : Bool :=
  if prevTotal = 0 then decide (0 < latestTotal)
  else decide ((latestTotal - prevTotal) / prevTotal * 100 > 100)

/-- The body of `NotificationService.checkAlertCondition` on the
extracted `previous` and `latest` samples: the four checks in source
order, each returning `true` early when it fires. -/
def checkAlertPair (previous latest : OptionsVolumeData) : Bool :=
  if jsAbsSwingGt50 previous.callPutRatio latest.callPutRatio then true
  else if decide (latest.callPutRatio > 3) &&
          decide (previous.callPutRatio < 3) then true
  else if decide (latest.callPutRatio < 0.5) &&
          decide (previous.callPutRatio > 0.5) then true
  else
    jsVolumeGt100 (previous.callVolume + previous.putVolume)
      (latest.callVolume + latest.putVolume)

/-- `NotificationService.checkAlertCondition data`: with fewer than two
samples no alert; otherwise the checks of `checkAlertPair` on
`previous = data[data.length - 2]` and `latest = data[data.length - 1]`. -/
def checkAlertCondition (data : List OptionsVolumeData) : Bool :=
  if data.length < 2 then false
  else
    checkAlertPair (data.getD (data.length - 2) default)
      (data.getD (data.length - 1) default)

/-- Instrumentation of the body of `checkAlertCondition`: `true`
exactly when the source run on this `previous`/`latest` pair evaluates
a division whose denominator is zero.  The ratio-swing division is
evaluated unconditionally; the volume division only when none of the
first three checks returned early. -/
def checkAlertPairDividesByZero (previous latest : OptionsVolumeData) :
    Bool :=
  if previous.callPutRatio = 0 then true
  else if jsAbsSwingGt50 previous.callPutRatio latest.callPutRatio then
    false
  else if decide (latest.callPutRatio > 3) &&
          decide (previous.callPutRatio < 3) then false
  else if decide (latest.callPutRatio < 0.5) &&
          decide (previous.callPutRatio > 0.5) then false
  else decide (previous.callVolume + previous.putVolume = 0)

/-- Instrumentation of `checkAlertCondition`: `true` exactly when its
run on `data` evaluates a division whose denominator is zero. -/
def checkAlertDividesByZero (data : List OptionsVolumeData) : Bool :=
  if data.length < 2 then false
  else
    checkAlertPairDividesByZero (data.getD (data.length - 2) default)
      (data.getD (data.length - 1) default)

/-- Milliseconds in one hour, the window of `checkVolumeAlerts`. -/
def oneHourMs : ℤ := 60 * 60 * 1000

/-- `NotificationService.checkVolumeAlerts symbol` at wall-clock time
`now` over table `tbl`: query the store for the last hour
(`startTime = now - 1h`, `endTime = now`), and if at least two samples
came back, alert according to `checkAlertCondition` on the query
result.  The returned boolean is whether an alert was sent. -/
def checkVolumeAlerts (tbl : List OptionsVolumeData) (now : ℤ)
    (symbol : String) : Bool :=
  let recentData :=
    getOptionsVolumeHistory tbl symbol (some (now - oneHourMs)) (some now)
  decide (2 ≤ recentData.length) && checkAlertCondition recentData

/-- The `StockData` quote record. -/
structure StockData where
  symbol : String
  name : String
  price : ℚ
  change : ℚ
  changePercent : ℚ
  volume : ℚ
  marketCap : Option ℚ
deriving DecidableEq

/-- JavaScript `a || b` on an optional number: `undefined`, `null` and
`0` are falsy. -/
def jsNumOr (a : Option ℚ) (b : ℚ) : ℚ :=
  match a with
  | none => b
  | some v => if v = 0 then b else v

/-- JavaScript truthiness of an optional number. -/
def jsNumTruthy (a : Option ℚ) : Bool :=
  match a with
  | none => false
  | some v => decide (v ≠ 0)

/-- JavaScript `a || b` on an optional string: `undefined`, `null` and
`""` are falsy. -/
def jsStrOr (a : Option String) (b : String) : String :=
  match a with
  | none => b
  | some s => if s = "" then b else s

/-- JavaScript `a || undefined` on an optional number (the `marketCap`
field): a falsy value collapses to `undefined`. -/
def jsNumOrUndefined (a : Option ℚ) : Option ℚ :=
  match a with
  | none => none
  | some v => if v = 0 then none else some v

/-- The fields of one element of a Tiingo `iex` endpoint response that
`formatTiingoQuote` reads; absent fields are `none`. -/
structure TiingoIexQuote where
  ticker : String
  last : Option ℚ
  prevClose : Option ℚ
  volume : Option ℚ
deriving DecidableEq

/-- The fields of the Tiingo metadata / search-item argument that
`formatTiingoQuote` reads from its optional `details` parameter. -/
structure TiingoDetails where
  name : Option String
  marketCap : Option ℚ
deriving DecidableEq

/-- `formatTiingoQuote data details` from `StockService.ts`:
`price = data.last || data.prevClose || 0`,
`prevClose = data.prevClose || price`,
`change = data.last ? data.last - prevClose : 0`,
`changePercent = prevClose ? (change / prevClose) * 100 : 0`. -/
def formatTiingoQuote (data : TiingoIexQuote)
    (details : Option TiingoDetails) : StockData :=
  let price := jsNumOr data.last (jsNumOr data.prevClose 0)
  let prevClose := jsNumOr data.prevClose price
  let change :=
    if jsNumTruthy data.last then data.last.getD 0 - prevClose else 0
  let changePercent := if prevClose = 0 then 0 else change / prevClose * 100
  { symbol := data.ticker
    name := jsStrOr (details.bind TiingoDetails.name) data.ticker
    price := price
    change := change
    changePercent := changePercent
    volume := jsNumOr data.volume 0
    marketCap := jsNumOrUndefined (details.bind TiingoDetails.marketCap) }

/-- `parseFloat(x.toFixed(2))`: rounding to two decimal places.  The
concrete inputs evaluated in this file are far from rounding ties, where
every reading of JavaScript double rounding agrees with this rational
rounding. -/
def round2 (x : ℚ) : ℚ :=
  ((⌊x * 100 + 1 / 2⌋ : ℤ) : ℚ) / 100

/-- `generatePriceMovement` from the mock quote service, with the two
`Math.random()` draws passed in as `rand1, rand2 ∈ [0,1]`:
`randomFactor = (rand1 * 4 - 2) / 100`,
`newPrice = price * (1 + randomFactor)`, `change = newPrice - price`,
`changePercent = (change / price) * 100` (the source divides without a
zero guard; `ℚ` division by zero yields `0` where JavaScript yields
`NaN` — no mock stock has a zero price and no theorem below relies on
that case), `volumeFactor = 0.8 + rand2 * 0.4`, all of price, change
and percent rounded through `toFixed(2)` and the volume floored. -/
def generatePriceMovement (stock : StockData) (rand1 rand2 : ℚ) :
    StockData :=
  let randomFactor := (rand1 * 4 - 2) / 100
  let newPrice := stock.price * (1 + randomFactor)
  let change := newPrice - stock.price
  let changePercent := change / stock.price * 100
  let volumeFactor := 0.8 + rand2 * 0.4
  { stock with
    price := round2 newPrice
    change := round2 change
    changePercent := round2 changePercent
    volume := ((⌊stock.volume * volumeFactor⌋ : ℤ) : ℚ) }

/-- The static `DUMMY_STOCKS` record of `DummyStockProvider.ts`, as the
association list of its keys in insertion order. -/
def DUMMY_STOCKS : List (String × StockData) :=
  [ ("AAPL",
     { symbol := "AAPL", name := "Apple Inc.", price := 205.73,
       change := 2.15, changePercent := 1.05, volume := 58432156,
       marketCap := some 3200000000000 }),
    ("MSFT",
     { symbol := "MSFT", name := "Microsoft Corporation", price := 412.67,
       change := 3.28, changePercent := 0.80, volume := 22145678,
       marketCap := some 3100000000000 }),
    ("GOOGL",
     { symbol := "GOOGL", name := "Alphabet Inc.", price := 176.92,
       change := -1.23, changePercent := -0.69, volume := 15234567,
       marketCap := some 2200000000000 }),
    ("AMZN",
     { symbol := "AMZN", name := "Amazon.com, Inc.", price := 183.47,
       change := 1.34, changePercent := 0.74, volume := 31245678,
       marketCap := some 1900000000000 }),
    ("META",
     { symbol := "META", name := "Meta Platforms, Inc.", price := 474.72,
       change := 3.56, changePercent := 0.76, volume := 19876543,
       marketCap := some 1200000000000 }),
    ("TSLA",
     { symbol := "TSLA", name := "Tesla, Inc.", price := 215.32,
       change := -4.89, changePercent := -2.22, volume := 45678912,
       marketCap := some 680000000000 }),
    ("NVDA",
     { symbol := "NVDA", name := "NVIDIA Corporation", price := 879.15,
       change := 12.36, changePercent := 1.42, volume := 37654321,
       marketCap := some 2170000000000 }),
    ("NFLX",
     { symbol := "NFLX", name := "Netflix, Inc.", price := 637.45,
       change := 5.21, changePercent := 0.82, volume := 12345876,
       marketCap := some 280000000000 }),
    ("JPM",
     { symbol := "JPM", name := "JPMorgan Chase & Co.", price := 193.74,
       change := -0.87, changePercent := -0.45, volume := 15678234,
       marketCap := some 560000000000 }),
    ("V",
     { symbol := "V", name := "Visa Inc.", price := 274.52,
       change := 1.21, changePercent := 0.44, volume := 10234567,
       marketCap := some 550000000000 }) ]

/-- JavaScript `String.prototype.toUpperCase` (ASCII case mapping),
written over the character list so that it reduces definitionally (the
core `String.toUpper` recurses over byte positions by well-founded
recursion, which the kernel cannot evaluate). -/
def jsToUpper (s : String) : String :=
  ⟨s.data.map Char.toUpper⟩

/-- JavaScript `String.prototype.includes`: substring containment. -/
def strIncludes (s sub : String) : Bool :=
  decide (sub.toList <:+: s.toList)

/-- `DummyStockProvider.searchStocks`: filter the record values by
symbol or name containing the upper-cased query. -/
def dummySearchStocks (query : String) : List StockData :=
  (DUMMY_STOCKS.map Prod.snd).filter (fun stock =>
    strIncludes (jsToUpper stock.symbol) (jsToUpper query) ||
    strIncludes (jsToUpper stock.name) (jsToUpper query))

/-- `DummyStockProvider.getStockQuote`:
`DUMMY_STOCKS[symbol.toUpperCase()] || null`. -/
def dummyGetStockQuote (symbol : String) : Option StockData :=
  DUMMY_STOCKS.lookup (jsToUpper symbol)

/-- `DummyStockProvider.getBatchQuotes`: per-symbol record lookup,
dropping the symbols that are absent. -/
def dummyGetBatchQuotes (symbols : List String) : List StockData :=
  symbols.filterMap (fun symbol => DUMMY_STOCKS.lookup (jsToUpper symbol))

/-- Observable behavior of `TiingoStockProvider`, abstracted over the
remote HTTP responses (network I/O has no shallow embedding); the
theorems below select providers so that this branch is never the one
exercised. -/
structure TiingoBehavior where
  search : String → List StockData
  quote : String → Option StockData
  batch : List String → List StockData

/-- Persisted settings read by provider selection: the stored Tiingo
API key and the stored data-provider string, each `none` when the
`AsyncStorage` key is unset. -/
structure Settings where
  tiingoApiKey : Option String
  dataProvider : Option String
deriving DecidableEq

/-- `SettingsService.hasTiingoApiKey`:
`apiKey !== null && apiKey.trim() !== ""`. -/
def hasTiingoApiKey (s : Settings) : Bool :=
  match s.tiingoApiKey with
  | none => false
  | some k => decide (k.trim ≠ "")

/-- `SettingsService.getDataProvider`: the stored string, with the
JavaScript `|| DataProvider.DUMMY` default for an unset key (and for
the falsy empty string). -/
def getDataProvider (s : Settings) : String :=
  match s.dataProvider with
  | none => "dummy"
  | some p => if p = "" then "dummy" else p

/-- `SettingsService.isUsingDummyProvider`. -/
def isUsingDummyProvider (s : Settings) : Bool :=
  decide (getDataProvider s = "dummy")

/-- Which provider a `StockDataProvider` instance is. -/
inductive ProviderKind where
  | dummy
  | tiingo
deriving DecidableEq

/-- `StockService.refreshProvider`: Tiingo is selected only when the
dummy provider is not selected and a non-empty API key is stored;
otherwise the dummy provider. -/
def refreshProvider (s : Settings) : ProviderKind :=
  if !(isUsingDummyProvider s) then
    if hasTiingoApiKey s then ProviderKind.tiingo else ProviderKind.dummy
  else ProviderKind.dummy

/-- `StockService.searchStocks`: dispatch through the provider chosen
by `refreshProvider` from the current settings. -/
def serviceSearchStocks (s : Settings) (net : TiingoBehavior)
    (query : String) : List StockData :=
  match refreshProvider s with
  | ProviderKind.dummy => dummySearchStocks query
  | ProviderKind.tiingo => net.search query

/-- `StockService.getStockQuote` via the chosen provider. -/
def serviceGetStockQuote (s : Settings) (net : TiingoBehavior)
    (symbol : String) : Option StockData :=
  match refreshProvider s with
  | ProviderKind.dummy => dummyGetStockQuote symbol
  | ProviderKind.tiingo => net.quote symbol

/-- `StockService.getBatchQuotes` via the chosen provider. -/
def serviceGetBatchQuotes (s : Settings) (net : TiingoBehavior)
    (symbols : List String) : List StockData :=
  match refreshProvider s with
  | ProviderKind.dummy => dummyGetBatchQuotes symbols
  | ProviderKind.tiingo => net.batch symbols

/-! Concrete samples used in the closed theorems below. -/

/-- A sample for "AAPL" at timestamp 1000. -/
def rowA : OptionsVolumeData :=
  { symbol := "AAPL", timestamp := 1000, callVolume := 10, putVolume := 5,
    callOpenInterest := 100, putOpenInterest := 50, callPutRatio := 2 }

/-- A sample for "MSFT" at timestamp 1000. -/
def rowB : OptionsVolumeData :=
  { symbol := "MSFT", timestamp := 1000, callVolume := 8, putVolume := 4,
    callOpenInterest := 80, putOpenInterest := 40, callPutRatio := 2 }

/-- A previous sample whose call/put ratio is exactly 3. -/
def sampleP3 : OptionsVolumeData :=
  { symbol := "AAPL", timestamp := 1000, callVolume := 100,
    putVolume := 100, callOpenInterest := 0, putOpenInterest := 0,
    callPutRatio := 3 }

/-- A latest sample with ratio 3.5 and the same total volume as
`sampleP3`. -/
def sampleL35 : OptionsVolumeData :=
  { symbol := "AAPL", timestamp := 2000, callVolume := 100,
    putVolume := 100, callOpenInterest := 0, putOpenInterest := 0,
    callPutRatio := 3.5 }

/-- A previous sample with call/put ratio 0. -/
def sampleP0 : OptionsVolumeData :=
  { symbol := "AAPL", timestamp := 1000, callVolume := 100,
    putVolume := 100, callOpenInterest := 0, putOpenInterest := 0,
    callPutRatio := 0 }

/-- A latest sample with ratio 1 and the same total volume as
`sampleP0`. -/
def sampleL1 : OptionsVolumeData :=
  { symbol := "AAPL", timestamp := 2000, callVolume := 100,
    putVolume := 100, callOpenInterest := 0, putOpenInterest := 0,
    callPutRatio := 1 }

/-- An "AAPL" sample three hours old at `now = 36000000`, ratio 1. -/
def staleP : OptionsVolumeData :=
  { symbol := "AAPL", timestamp := 25200000, callVolume := 100,
    putVolume := 100, callOpenInterest := 0, putOpenInterest := 0,
    callPutRatio := 1 }

/-- An "AAPL" sample two hours old at `now = 36000000`, ratio 3.5. -/
def staleL : OptionsVolumeData :=
  { symbol := "AAPL", timestamp := 28800000, callVolume := 100,
    putVolume := 100, callOpenInterest := 0, putOpenInterest := 0,
    callPutRatio := 3.5 }

/-- A latest sample with ratio 0.4 and the same total volume as
`staleP`. -/
def sampleL04 : OptionsVolumeData :=
  { symbol := "AAPL", timestamp := 2000, callVolume := 100,
    putVolume := 100, callOpenInterest := 0, putOpenInterest := 0,
    callPutRatio := 0.4 }

/-- A previous sample with ratio 1 and zero total volume. -/
def sampleQ1 : OptionsVolumeData :=
  { symbol := "AAPL", timestamp := 1000, callVolume := 0, putVolume := 0,
    callOpenInterest := 0, putOpenInterest := 0, callPutRatio := 1 }

/-- A latest sample with ratio 1 and zero total volume. -/
def sampleR1 : OptionsVolumeData :=
  { symbol := "AAPL", timestamp := 2000, callVolume := 0, putVolume := 0,
    callOpenInterest := 0, putOpenInterest := 0, callPutRatio := 1 }

/-- The "AAPL" entry of `DUMMY_STOCKS`. -/
def aaplStock : StockData :=
  { symbol := "AAPL", name := "Apple Inc.", price := 205.73,
    change := 2.15, changePercent := 1.05, volume := 58432156,
    marketCap := some 3200000000000 }

/-- The percent-change invariant claimed for `Quote` values, as a
decidable statement about one `StockData` record. -/
def percentChangeInvariant (q : StockData) : Prop :=
  q.changePercent =
    if q.price - q.change = 0 then 0
    else q.change / (q.price - q.change) * 100

instance (q : StockData) : Decidable (percentChangeInvariant q) := by
  unfold percentChangeInvariant
  infer_instance

/-- C1: `saveOptionsVolumeBatch` is not atomic.  Inserting the batch
`[rowA, rowB]` into an empty `option_volume_history` while the storage
layer rejects the second statement leaves the first row visible even
though the call as a whole fails: `executeTransaction` runs the
statements sequentially with no `BEGIN`/`ROLLBACK`, so the failed batch
is partially written, contradicting both the batch-atomicity
requirement and the method's own "in a transaction" documentation. -/
theorem saveOptionsVolumeBatch_not_atomic :
    saveOptionsVolumeBatch (fun r => r.symbol == "MSFT") [] [rowA, rowB] =
      ([rowA], false) ∧ rowA ∈ ([rowA] : List OptionsVolumeData) := by
  constructor
  · rfl
  · exact List.mem_singleton.mpr rfl

/-- C2 counterexample: with the previous ratio exactly 3.0, the latest
ratio 3.5, and equal total volumes, no alert fires — the source tests
`previous.callPutRatio < 3.0` strictly, not `≤ 3.0` as the claim
states. -/
theorem alert_boundary_three_no_fire :
    sampleP3.callPutRatio = 3 ∧ (3 : ℚ) < sampleL35.callPutRatio ∧
      checkAlertCondition [sampleP3, sampleL35] = false := by
  refine ⟨rfl, by norm_num [sampleL35], ?_⟩
  norm_num [checkAlertCondition, checkAlertPair, sampleP3, sampleL35,
    jsAbsSwingGt50, jsVolumeGt100, List.getD, abs_le]

/-- C3 counterexample: on a pair of samples whose previous call/put
ratio is 0, `checkAlertCondition` does evaluate the ratio-swing
division with a zero denominator — there is no guard — and the alert it
returns is decided by exactly that division (the JavaScript quotient is
`Infinity`, so the 50%-swing comparison fires; no other condition of
this input fires). -/
theorem alert_division_by_zero_at_zero_ratio :
    checkAlertDividesByZero [sampleP0, sampleL1] = true ∧
      checkAlertCondition [sampleP0, sampleL1] = true := by
  constructor
  · norm_num [checkAlertDividesByZero, checkAlertPairDividesByZero,
      sampleP0, sampleL1, List.getD]
  · norm_num [checkAlertCondition, checkAlertPair, sampleP0, sampleL1,
      jsAbsSwingGt50, List.getD]

/-- C4 counterexample: `checkVolumeAlerts` queries only the last hour,
so with both stored "AAPL" samples two and three hours old it produces
no alert, although `checkAlertCondition` applied to the last two
samples of the symbol's full stored history fires. -/
theorem checkVolumeAlerts_ignores_old_samples :
    checkVolumeAlerts [staleP, staleL] 36000000 "AAPL" = false ∧
      getOptionsVolumeHistory [staleP, staleL] "AAPL" none none =
        [staleP, staleL] ∧
      checkAlertCondition [staleP, staleL] = true := by
  refine ⟨rfl, rfl, ?_⟩
  norm_num [checkAlertCondition, checkAlertPair, staleP, staleL,
    jsAbsSwingGt50, List.getD, abs_le]

/-- C5 counterexample: the percent-change invariant fails on the static
dummy dataset and on `generatePriceMovement`.  The "AAPL" entry stores
the rounded `changePercent = 1.05` although
`change / (price - change) * 100 = 21500/20358 ≈ 1.056`; and
`generatePriceMovement` on that entry with `Math.random()` draws
`3/4, 1/2` returns `changePercent = 1` with
`change / (price - change) * 100 = 20600/20573 ≈ 1.0013`, because all
three fields pass through `toFixed(2)` rounding. -/
theorem quote_invariant_fails_dummy_and_random :
    DUMMY_STOCKS.lookup "AAPL" = some aaplStock ∧
      ¬ percentChangeInvariant aaplStock ∧
      ¬ percentChangeInvariant (generatePriceMovement aaplStock (3/4) (1/2)) := by
  refine ⟨rfl, ?_, ?_⟩
  · norm_num [percentChangeInvariant, aaplStock]
  · norm_num [percentChangeInvariant, generatePriceMovement, aaplStock,
      round2]

/-- On a history ending in `p` then `l`, `checkAlertCondition` decides
from exactly that pair. -/
theorem checkAlertCondition_append (ps : List OptionsVolumeData)
    (p l : OptionsVolumeData) :
    checkAlertCondition (ps ++ [p, l]) = checkAlertPair p l := by
  unfold checkAlertCondition
  have hL : (ps ++ [p, l]).length = ps.length + 2 := by simp
  rw [hL, if_neg (by omega)]
  congr 1
  · rw [show ps.length + 2 - 2 = ps.length from by omega,
      List.getD_append_right _ _ _ _ le_rfl, Nat.sub_self]
    rfl
  · rw [show ps.length + 2 - 1 = ps.length + 1 from by omega,
      List.getD_append_right _ _ _ _ (by omega),
      show ps.length + 1 - ps.length = 1 from by omega]
    rfl

/-- On a history ending in `p` then `l`, the division instrumentation
also reads exactly that pair. -/
theorem checkAlertDividesByZero_append (ps : List OptionsVolumeData)
    (p l : OptionsVolumeData) :
    checkAlertDividesByZero (ps ++ [p, l]) =
      checkAlertPairDividesByZero p l := by
  unfold checkAlertDividesByZero
  have hL : (ps ++ [p, l]).length = ps.length + 2 := by simp
  rw [hL, if_neg (by omega)]
  congr 1
  · rw [show ps.length + 2 - 2 = ps.length from by omega,
      List.getD_append_right _ _ _ _ le_rfl, Nat.sub_self]
    rfl
  · rw [show ps.length + 2 - 1 = ps.length + 1 from by omega,
      List.getD_append_right _ _ _ _ (by omega),
      show ps.length + 1 - ps.length = 1 from by omega]
    rfl

/-- C2 amended: the threshold crossings use strict inequalities on the
previous sample.  For any stored history ending in previous sample `p`
and latest sample `l`, an alert fires when `l.ratio > 3` and
`p.ratio < 3` (strictly), and when `l.ratio < 0.5` and `p.ratio > 0.5`
(strictly); with `p.ratio` exactly `3`, `l.ratio` above `3`, and
neither the 50%-swing nor the volume check firing, no alert fires. -/
theorem alert_threshold_crossing_strict (ps : List OptionsVolumeData)
    (p l : OptionsVolumeData) :
    (3 < l.callPutRatio → p.callPutRatio < 3 →
      checkAlertCondition (ps ++ [p, l]) = true) ∧
    (l.callPutRatio < 0.5 → 0.5 < p.callPutRatio →
      checkAlertCondition (ps ++ [p, l]) = true) ∧
    (p.callPutRatio = 3 → 3 < l.callPutRatio →
      jsAbsSwingGt50 p.callPutRatio l.callPutRatio = false →
      jsVolumeGt100 (p.callVolume + p.putVolume)
        (l.callVolume + l.putVolume) = false →
      checkAlertCondition (ps ++ [p, l]) = false) := by
  rw [checkAlertCondition_append]
  refine ⟨?_, ?_, ?_⟩
  · intro h1 h2
    by_cases hs : jsAbsSwingGt50 p.callPutRatio l.callPutRatio <;>
      simp [checkAlertPair, hs, h1, h2]
  · intro h1 h2
    by_cases hs : jsAbsSwingGt50 p.callPutRatio l.callPutRatio
    · simp [checkAlertPair, hs]
    · by_cases hb : decide (l.callPutRatio > 3) &&
        decide (p.callPutRatio < 3)
      · simp [checkAlertPair, hs, hb]
      · simp [checkAlertPair, hs, hb, h1, h2]
  · intro hp h1 hs hv
    rw [hp] at hs
    have hnb : ¬ (l.callPutRatio < 0.5) := by
      have : (0.5 : ℚ) < 3 := by norm_num
      linarith
    simp [checkAlertPair, hs, hp, hv, hnb]

/-- Witness for `alert_threshold_crossing_strict` at concrete samples:
ratio 1 to 3.5 fires (bullish crossing), ratio 1 to 0.4 fires (bearish
crossing), and ratio exactly 3 to 3.5 with equal volumes does not. -/
theorem alert_threshold_crossing_strict_witness :
    checkAlertCondition [staleP, staleL] = true ∧
    checkAlertCondition [staleP, sampleL04] = true ∧
    checkAlertCondition [sampleP3, sampleL35] = false := by
  refine ⟨(alert_threshold_crossing_strict [] staleP staleL).1
      (by norm_num [staleL]) (by norm_num [staleP]),
    (alert_threshold_crossing_strict [] staleP sampleL04).2.1
      (by norm_num [sampleL04]) (by norm_num [staleP]),
    (alert_threshold_crossing_strict [] sampleP3 sampleL35).2.2
      (by norm_num [sampleP3]) (by norm_num [sampleL35]) ?_ ?_⟩
  · norm_num [jsAbsSwingGt50, sampleP3, sampleL35, abs_le]
  · norm_num [jsVolumeGt100, sampleP3, sampleL35]

/-- C3 amended: the two divisions of `checkAlertCondition` are not
guarded.  On any history ending in `p` then `l`: when `p.ratio = 0`
the ratio-swing division is evaluated with a zero denominator, and when
moreover `l.ratio ≠ 0` the alert fires, decided by precisely that
division (its JavaScript value is `±Infinity`); and when the first
three checks fall through with `p`'s total volume zero, the volume
division is evaluated with a zero denominator. -/
theorem alert_division_unguarded (ps : List OptionsVolumeData)
    (p l : OptionsVolumeData) :
    (p.callPutRatio = 0 →
      checkAlertDividesByZero (ps ++ [p, l]) = true) ∧
    (p.callPutRatio = 0 → l.callPutRatio ≠ 0 →
      checkAlertCondition (ps ++ [p, l]) = true) ∧
    (p.callPutRatio ≠ 0 →
      jsAbsSwingGt50 p.callPutRatio l.callPutRatio = false →
      (decide (l.callPutRatio > 3) && decide (p.callPutRatio < 3)) = false →
      (decide (l.callPutRatio < 0.5) && decide (p.callPutRatio > 0.5)) = false →
      p.callVolume + p.putVolume = 0 →
      checkAlertDividesByZero (ps ++ [p, l]) = true) := by
  rw [checkAlertCondition_append, checkAlertDividesByZero_append]
  refine ⟨?_, ?_, ?_⟩
  · intro hp
    simp [checkAlertPairDividesByZero, hp]
  · intro hp hl
    simp [checkAlertPair, jsAbsSwingGt50, hp, hl]
  · intro hp hs hb1 hb2 hv
    simp [checkAlertPairDividesByZero, hp, hs, hb1, hb2, hv]

/-- Witness for `alert_division_unguarded`: with previous ratio 0 and
latest ratio 1 both the instrumentation and the alert return true, and
with ratios 1, 1 and zero previous total volume the volume division has
a zero denominator. -/
theorem alert_division_unguarded_witness :
    checkAlertDividesByZero [sampleP0, sampleL1] = true ∧
    checkAlertCondition [sampleP0, sampleL1] = true ∧
    checkAlertDividesByZero [sampleQ1, sampleR1] = true := by
  refine ⟨(alert_division_unguarded [] sampleP0 sampleL1).1 rfl,
    (alert_division_unguarded [] sampleP0 sampleL1).2.1 rfl
      (by norm_num [sampleL1]),
    (alert_division_unguarded [] sampleQ1 sampleR1).2.2
      (by norm_num [sampleQ1]) ?_ ?_ ?_ (by norm_num [sampleQ1])⟩
  · norm_num [jsAbsSwingGt50, sampleQ1, sampleR1]
  · norm_num [sampleQ1, sampleR1]
  · norm_num [sampleQ1, sampleR1]

/-- C4 amended: `checkVolumeAlerts` decides from the stored samples of
the last hour only.  Its decision equals `checkAlertCondition` applied
to the query result for the window `[now - 1h, now]` (which needs at
least two samples in that window), with fewer than two in-window
samples no alert is produced, and a stored row outside the window (or
for another symbol) never changes the decision — in particular the two
most recent stored samples are ignored when they are older than one
hour.  The `now ≠ 0` and `now - 1h ≠ 0` side conditions keep the
JavaScript-falsy query bounds active. -/
theorem checkVolumeAlerts_window_decision (tbl : List OptionsVolumeData)
    (now : ℤ) (sym : String) :
    (checkVolumeAlerts tbl now sym =
      (decide (2 ≤ (getOptionsVolumeHistory tbl sym (some (now - oneHourMs))
          (some now)).length) &&
        checkAlertCondition (getOptionsVolumeHistory tbl sym
          (some (now - oneHourMs)) (some now)))) ∧
    ((getOptionsVolumeHistory tbl sym (some (now - oneHourMs))
        (some now)).length < 2 →
      checkVolumeAlerts tbl now sym = false) ∧
    (∀ r : OptionsVolumeData, now ≠ 0 → now - oneHourMs ≠ 0 →
      (¬ r.symbol = sym ∨ r.timestamp < now - oneHourMs ∨
        now < r.timestamp) →
      checkVolumeAlerts (tbl ++ [r]) now sym =
        checkVolumeAlerts tbl now sym) := by
  refine ⟨rfl, ?_, ?_⟩
  · intro h
    simp only [checkVolumeAlerts]
    rw [decide_eq_false (by omega), Bool.false_and]
  · intro r hn hl hdisj
    have hpred : (r.symbol == sym && tsLowerOk (some (now - oneHourMs)) r
        && tsUpperOk (some now) r) = false := by
      rcases hdisj with h | h | h
      · have hb : (r.symbol == sym) = false := by
          simp [h]
        simp [hb]
      · have hb : tsLowerOk (some (now - oneHourMs)) r = false := by
          simp only [tsLowerOk, if_neg hl]
          simp
          omega
        simp [hb]
      · have hb : tsUpperOk (some now) r = false := by
          simp only [tsUpperOk, if_neg hn]
          simp
          omega
        simp [hb]
    have hq : getOptionsVolumeHistory (tbl ++ [r]) sym
        (some (now - oneHourMs)) (some now) =
        getOptionsVolumeHistory tbl sym (some (now - oneHourMs))
          (some now) := by
      unfold getOptionsVolumeHistory
      congr 1
      rw [List.filter_append]
      simp [List.filter_cons, hpred]
    simp only [checkVolumeAlerts]
    rw [hq]

/-- Witness for `checkVolumeAlerts_window_decision`: an empty store
yields no alert, and appending a row for another symbol leaves the
decision unchanged. -/
theorem checkVolumeAlerts_window_decision_witness :
    checkVolumeAlerts [] 7200000 "AAPL" = false ∧
    checkVolumeAlerts [rowB] 7200000 "AAPL" =
      checkVolumeAlerts [] 7200000 "AAPL" := by
  refine ⟨(checkVolumeAlerts_window_decision [] 7200000 "AAPL").2.1
      (by decide),
    (checkVolumeAlerts_window_decision [] 7200000 "AAPL").2.2 rowB
      (by decide) (by decide) (Or.inl (by decide))⟩

/-- C5 amended: the percent-change invariant holds for every quote
produced by `formatTiingoQuote` (for any remote response); the static
dummy entries and the outputs of `generatePriceMovement` satisfy it
only approximately, because their fields are rounded to two decimals
(see the counterexample). -/
theorem formatTiingoQuote_percentChange_invariant (data : TiingoIexQuote)
    (details : Option TiingoDetails) :
    percentChangeInvariant (formatTiingoQuote data details) := by
  unfold percentChangeInvariant formatTiingoQuote
  rcases hd : data.last with _ | v
  · rcases hp : data.prevClose with _ | w
    · simp [jsNumTruthy, jsNumOr, hd, hp]
    · by_cases hw : w = 0
      · simp [jsNumTruthy, jsNumOr, hd, hp, hw]
      · simp [jsNumTruthy, jsNumOr, hd, hp, hw]
  · by_cases hv : v = 0
    · rcases hp : data.prevClose with _ | w
      · simp [jsNumTruthy, jsNumOr, hd, hp, hv]
      · by_cases hw : w = 0
        · simp [jsNumTruthy, jsNumOr, hd, hp, hv, hw]
        · simp [jsNumTruthy, jsNumOr, hd, hp, hv, hw]
    · rcases hp : data.prevClose with _ | w
      · simp [jsNumTruthy, jsNumOr, hd, hp, hv]
      · by_cases hw : w = 0
        · simp [jsNumTruthy, jsNumOr, hd, hp, hv, hw]
        · have hsub : v - (v - w) = w := by ring
          simp [jsNumTruthy, jsNumOr, hd, hp, hv, hw, hsub]

/-- C6: when the stored provider selection is "tiingo" but no usable
API key is stored, `refreshProvider` falls back to the dummy provider,
so every `StockService` operation behaves exactly as with the dummy
provider selected, whatever the remote behavior would have been; in
particular `getStockQuote("AAPL")` returns the dummy AAPL quote in
both configurations. -/
theorem provider_fallback_no_api_key (s : Settings) (net : TiingoBehavior)
    (h1 : hasTiingoApiKey s = false)
    (_h2 : s.dataProvider = some "tiingo") :
    (∀ q, serviceSearchStocks s net q =
      serviceSearchStocks { s with dataProvider := some "dummy" } net q) ∧
    (∀ sym, serviceGetStockQuote s net sym =
      serviceGetStockQuote { s with dataProvider := some "dummy" } net sym) ∧
    (∀ syms, serviceGetBatchQuotes s net syms =
      serviceGetBatchQuotes { s with dataProvider := some "dummy" } net
        syms) ∧
    serviceGetStockQuote s net "AAPL" = some aaplStock ∧
    serviceGetStockQuote { s with dataProvider := some "dummy" } net
      "AAPL" = some aaplStock := by
  have hrp : refreshProvider s = ProviderKind.dummy := by
    simp [refreshProvider, h1]
  have hrp2 : refreshProvider { s with dataProvider := some "dummy" } =
      ProviderKind.dummy := by
    simp [refreshProvider, isUsingDummyProvider, getDataProvider]
  refine ⟨?_, ?_, ?_, ?_, ?_⟩
  · intro q
    simp [serviceSearchStocks, hrp, hrp2]
  · intro sym
    simp [serviceGetStockQuote, hrp, hrp2]
  · intro syms
    simp [serviceGetBatchQuotes, hrp, hrp2]
  · simp only [serviceGetStockQuote, hrp]
    rfl
  · simp only [serviceGetStockQuote, hrp2]
    rfl

/-- A remote behavior returning nothing, used to instantiate theorems
about provider selection. -/
def netEmpty : TiingoBehavior :=
  { search := fun _ => [], quote := fun _ => none, batch := fun _ => [] }

/-- Witness for `provider_fallback_no_api_key` at the concrete settings
(no stored key, provider "tiingo"): the AAPL quote is the dummy entry
and agrees with the dummy-provider configuration. -/
theorem provider_fallback_no_api_key_witness :
    serviceGetStockQuote ⟨none, some "tiingo"⟩ netEmpty "AAPL" =
      some aaplStock ∧
    serviceGetStockQuote ⟨none, some "tiingo"⟩ netEmpty "MSFT" =
      serviceGetStockQuote ⟨none, some "dummy"⟩ netEmpty "MSFT" := by
  have h := provider_fallback_no_api_key ⟨none, some "tiingo"⟩ netEmpty
    rfl rfl
  exact ⟨h.2.2.2.1, h.2.1 "MSFT"⟩

/-- The "AAPL" sample at timestamp 1000 with call volume 10. -/
def sampleA10 : OptionsVolumeData :=
  { symbol := "AAPL", timestamp := 1000, callVolume := 10, putVolume := 5,
    callOpenInterest := 0, putOpenInterest := 0, callPutRatio := 2 }

/-- The "AAPL" sample at timestamp 1000 with call volume 20. -/
def sampleA20 : OptionsVolumeData :=
  { symbol := "AAPL", timestamp := 1000, callVolume := 20, putVolume := 5,
    callOpenInterest := 0, putOpenInterest := 0, callPutRatio := 4 }

/-- C7: upsert is replace-on-conflict over the `(symbol, timestamp)`
key.  After upserting `x` into any store the store holds exactly one
row with `x`'s key, namely `x` itself; upserting `y` with the same key
afterwards (identical fields or not) leaves exactly the single row `y`
for that key; and concretely, writing AAPL/1000 with call volume 10
then 20 makes `query("AAPL", 0, 2000)` return the single row with call
volume 20. -/
theorem upsert_replace_on_conflict :
    (∀ (tbl : List OptionsVolumeData) (x : OptionsVolumeData),
      (saveOptionsVolumeData tbl x).filter (fun r => sameKey r x) = [x]) ∧
    (∀ (tbl : List OptionsVolumeData) (x y : OptionsVolumeData),
      x.symbol = y.symbol → x.timestamp = y.timestamp →
      (saveOptionsVolumeData (saveOptionsVolumeData tbl x) y).filter
        (fun r => sameKey r y) = [y]) ∧
    getOptionsVolumeHistory
      (saveOptionsVolumeData (saveOptionsVolumeData [] sampleA10)
        sampleA20) "AAPL" (some 0) (some 2000) = [sampleA20] ∧
    sampleA20.callVolume = 20 := by
  have hkey : ∀ (tbl : List OptionsVolumeData) (x : OptionsVolumeData),
      (saveOptionsVolumeData tbl x).filter (fun r => sameKey r x) = [x] := by
    intro tbl x
    unfold saveOptionsVolumeData upsertRow
    rw [List.filter_append, List.filter_filter]
    have h1 : tbl.filter (fun a => sameKey a x && !(sameKey a x)) = [] := by
      simp
    have h2 : [x].filter (fun r => sameKey r x) = [x] := by
      simp [sameKey]
    rw [h1, h2, List.nil_append]
  exact ⟨hkey, fun tbl x y _ _ => hkey (saveOptionsVolumeData tbl x) y,
    rfl, rfl⟩

/-- Witness for `upsert_replace_on_conflict`: the double upsert of the
same key at the concrete AAPL samples leaves exactly the second row. -/
theorem upsert_replace_on_conflict_witness :
    (saveOptionsVolumeData (saveOptionsVolumeData [] sampleA10)
      sampleA20).filter (fun r => sameKey r sampleA20) = [sampleA20] :=
  upsert_replace_on_conflict.2.1 [] sampleA10 sampleA20 rfl rfl

/-- C9: `purgeOldData` deletes exactly the rows of
`option_volume_history` older than `now - 7` days and nothing else: the
surviving list is the in-order filter of the old one by
`cutoff ≤ timestamp`, the `moving_averages` table is untouched, a row
is retained iff it was present and not older than the cutoff, every row
8 days old is gone, and every present row 1 day old is kept. -/
theorem purgeOldData_exact_retention (db : DbState) (now : ℤ) :
    ((purgeOldData now db).optionVolumeHistory =
      db.optionVolumeHistory.filter
        (fun r => decide (now - sevenDaysMs ≤ r.timestamp))) ∧
    ((purgeOldData now db).movingAverages = db.movingAverages) ∧
    (∀ r : OptionsVolumeData,
      r ∈ (purgeOldData now db).optionVolumeHistory ↔
        r ∈ db.optionVolumeHistory ∧
          ¬(r.timestamp < now - sevenDaysMs)) ∧
    (∀ r : OptionsVolumeData, r.timestamp = now - 8 * 86400000 →
      r ∉ (purgeOldData now db).optionVolumeHistory) ∧
    (∀ r : OptionsVolumeData, r ∈ db.optionVolumeHistory →
      r.timestamp = now - 86400000 →
      r ∈ (purgeOldData now db).optionVolumeHistory) := by
  have h3 : ∀ r : OptionsVolumeData,
      r ∈ (purgeOldData now db).optionVolumeHistory ↔
        r ∈ db.optionVolumeHistory ∧
          ¬(r.timestamp < now - sevenDaysMs) := by
    intro r
    simp [purgeOldData, List.mem_filter]
  refine ⟨?_, rfl, h3, ?_, ?_⟩
  · apply List.filter_congr
    intro a _
    rw [← decide_not]
    exact decide_eq_decide.mpr Int.not_lt
  · intro r hts hmem
    obtain ⟨_, hc⟩ := (h3 r).mp hmem
    apply hc
    rw [hts]
    simp only [sevenDaysMs]
    omega
  · intro r hmem hts
    exact (h3 r).mpr ⟨hmem, by rw [hts]; simp only [sevenDaysMs]; omega⟩

/-- An 8-day-old "AAPL" row at `now = 1000000000`. -/
def rowEightDays : OptionsVolumeData :=
  { symbol := "AAPL", timestamp := 308800000, callVolume := 1,
    putVolume := 1, callOpenInterest := 0, putOpenInterest := 0,
    callPutRatio := 1 }

/-- A 1-day-old "AAPL" row at `now = 1000000000`. -/
def rowOneDay : OptionsVolumeData :=
  { symbol := "AAPL", timestamp := 913600000, callVolume := 1,
    putVolume := 1, callOpenInterest := 0, putOpenInterest := 0,
    callPutRatio := 1 }

/-- The store holding the 8-day-old and 1-day-old rows. -/
def dbRetention : DbState :=
  { optionVolumeHistory := [rowEightDays, rowOneDay],
    movingAverages := [] }

/-- Witness for `purgeOldData_exact_retention` at `now = 1000000000`:
the 8-day-old row is removed, the 1-day-old row survives. -/
theorem purgeOldData_exact_retention_witness :
    rowEightDays ∉ (purgeOldData 1000000000 dbRetention).optionVolumeHistory ∧
    rowOneDay ∈ (purgeOldData 1000000000 dbRetention).optionVolumeHistory := by
  refine ⟨(purgeOldData_exact_retention dbRetention 1000000000).2.2.2.1
      rowEightDays (by decide),
    (purgeOldData_exact_retention dbRetention 1000000000).2.2.2.2
      rowOneDay ?_ (by decide)⟩
  exact List.mem_cons_of_mem _ (List.mem_singleton.mpr rfl)

/-- An "AAPL" row at the positive timestamp 5. -/
def rowT5 : OptionsVolumeData :=
  { symbol := "AAPL", timestamp := 5, callVolume := 1, putVolume := 1,
    callOpenInterest := 0, putOpenInterest := 0, callPutRatio := 1 }

/-- C10: a range bound equal to `0` is not applied by
`getOptionsVolumeHistory` — `startTime = 0` queries as if there were no
lower bound, `endTime = 0` applies no upper bound at all; concretely a
row at timestamp 5 is returned by a query with `endTime = 0` although
`5 ≤ 0` fails. -/
theorem query_zero_bounds_not_applied (tbl : List OptionsVolumeData)
    (sym : String) (b : Option ℤ) :
    (getOptionsVolumeHistory tbl sym (some 0) b =
      getOptionsVolumeHistory tbl sym none b) ∧
    (getOptionsVolumeHistory tbl sym b (some 0) =
      getOptionsVolumeHistory tbl sym b none) ∧
    getOptionsVolumeHistory [rowT5] "AAPL" (some 1) (some 0) = [rowT5] :=
  ⟨rfl, rfl, rfl⟩

/-- Distinctness of `(symbol, timestamp)` keys, the schema's
uniqueness constraint between two rows. -/
def keyNe (a b : OptionsVolumeData) : Prop :=
  ¬(a.symbol = b.symbol ∧ a.timestamp = b.timestamp)

theorem keyNe_symmetric : Symmetric keyNe := by
  intro a b h hab
  exact h ⟨hab.1.symm, hab.2.symm⟩

/-- Every row of an upserted table is an old row or the new row. -/
theorem mem_upsertRow {tbl : List OptionsVolumeData}
    {x r : OptionsVolumeData} (h : r ∈ upsertRow tbl x) :
    r ∈ tbl ∨ r = x := by
  unfold upsertRow at h
  rcases List.mem_append.mp h with h1 | h1
  · exact Or.inl (List.mem_filter.mp h1).1
  · exact Or.inr (List.mem_singleton.mp h1)

/-- Upserting preserves pairwise key distinctness: the conflicting row
is filtered out before the new row is appended. -/
theorem pairwise_upsertRow {tbl : List OptionsVolumeData}
    (x : OptionsVolumeData) (h : tbl.Pairwise keyNe) :
    (upsertRow tbl x).Pairwise keyNe := by
  unfold upsertRow
  rw [List.pairwise_append]
  refine ⟨h.filter _, List.pairwise_singleton _ _, ?_⟩
  intro a ha b hb
  rw [List.mem_singleton] at hb
  subst hb
  have hfa := (List.mem_filter.mp ha).2
  intro hab
  simp [sameKey, hab.1, hab.2] at hfa

/-- The table obtained by upserting the samples of `ops` in order into
an empty `option_volume_history`. -/
def applyUpserts (ops : List OptionsVolumeData) : List OptionsVolumeData :=
  ops.foldl saveOptionsVolumeData []

/-- Invariant of the upsert fold: key distinctness is preserved and
every row present came from the accumulator or from the upserted
samples. -/
theorem foldl_upsert_invariant (ops : List OptionsVolumeData) :
    ∀ acc : List OptionsVolumeData, acc.Pairwise keyNe →
      (ops.foldl saveOptionsVolumeData acc).Pairwise keyNe ∧
      (∀ r ∈ ops.foldl saveOptionsVolumeData acc, r ∈ acc ∨ r ∈ ops) := by
  induction ops with
  | nil =>
    intro acc h
    exact ⟨h, fun r hr => Or.inl hr⟩
  | cons a ops ih =>
    intro acc h
    have h2 := ih (saveOptionsVolumeData acc a) (pairwise_upsertRow a h)
    refine ⟨h2.1, ?_⟩
    intro r hr
    rcases h2.2 r hr with hacc | hops
    · rcases mem_upsertRow hacc with hin | heq
      · exact Or.inl hin
      · exact Or.inr (heq ▸ List.mem_cons_self a ops)
    · exact Or.inr (List.mem_cons_of_mem a hops)

/-- C8: for every sequence of upserted samples and every query over the
resulting store, `getOptionsVolumeHistory` returns its rows sorted in
non-decreasing timestamp order, every returned row is one of the
upserted samples (no rows are invented), and the returned rows have
pairwise distinct `(symbol, timestamp)` keys (no duplicates, so each
returned sample matches exactly one stored row for its key). -/
theorem query_sorted_and_provenance (ops : List OptionsVolumeData)
    (sym : String) (st et : Option ℤ) :
    List.Sorted tsLE (getOptionsVolumeHistory (applyUpserts ops) sym st et) ∧
    (∀ r ∈ getOptionsVolumeHistory (applyUpserts ops) sym st et,
      r ∈ ops) ∧
    (getOptionsVolumeHistory (applyUpserts ops) sym st et).Pairwise
      keyNe := by
  have hinv := foldl_upsert_invariant ops [] List.Pairwise.nil
  unfold getOptionsVolumeHistory
  refine ⟨List.sorted_insertionSort tsLE _, ?_, ?_⟩
  · intro r hr
    have hmem := (List.perm_insertionSort tsLE _).subset hr
    have hrt := (List.mem_filter.mp hmem).1
    rcases hinv.2 r hrt with hnil | hops
    · exact absurd hnil (List.not_mem_nil r)
    · exact hops
  · exact ((List.perm_insertionSort tsLE _).pairwise_iff
      (fun hab => keyNe_symmetric hab)).mpr (hinv.1.filter _)

/-- Witness for `query_sorted_and_provenance` at a concrete store: the
query over the upserts `[rowA, staleP]` is sorted, and its returned row
`rowA` is one of the upserted samples. -/
theorem query_sorted_and_provenance_witness :
    List.Sorted tsLE (getOptionsVolumeHistory
      (applyUpserts [rowA, staleP]) "AAPL" none none) ∧
    rowA ∈ ([rowA, staleP] : List OptionsVolumeData) := by
  refine ⟨(query_sorted_and_provenance [rowA, staleP] "AAPL"
      none none).1, ?_⟩
  refine (query_sorted_and_provenance [rowA, staleP] "AAPL"
      none none).2.1 rowA ?_
  show rowA ∈ getOptionsVolumeHistory (applyUpserts [rowA, staleP])
    "AAPL" none none
  exact List.mem_cons_self _ _

end StockWatcher
